import Mathlib

/-!
Verification of the Resume Rewriter web application (frontend TypeScript
sources plus the description in the spec of the backend workflow).

The definitions below are a shallow embedding of the program:
* `ResumeUpload` models `frontend/src/components/resumes/ResumeUpload.tsx`
  (file validation, selection state, the upload action);
* `WizardUpload` models the resume-upload step of the wizard component
  (`handleFileSelect` with its regex extension fallback);
* `userService` models the HTTP client `frontend/src/services/userService.ts`
  (request construction and response handling);
* `AddJob` models the job-creation submit handlers of the Add-Job modal and
  the Add-Job page;
* `Dashboard` models the selection-set handler of the dashboard page and the two
  copies of `getTimeAgo`;
* `Backend` models, from the spec, the backend pieces that are not part of
  the provided sources (Analysis Normalizer, set-primary, soft-delete/restore).
-/

namespace ResumeRewriter

/-- ASCII lowering of one character — the effect of JavaScript
`toLowerCase()` on the filenames this code handles. -/
def jsToLower (c : Char) : Char :=
  if 'A' ≤ c ∧ c ≤ 'Z' then Char.ofNat (c.toNat + 32) else c

/-- ASCII raising of one character — the effect of JavaScript
`toUpperCase()` on the extension strings this code handles. -/
def jsToUpper (c : Char) : Char :=
  if 'a' ≤ c ∧ c ≤ 'z' then Char.ofNat (c.toNat - 32) else c

/-- JavaScript `toLowerCase()` on a string. -/
def lowerStr (s : String) : String := ⟨s.data.map jsToLower⟩

/-- JavaScript `toUpperCase()` on a string. -/
def upperStr (s : String) : String := ⟨s.data.map jsToUpper⟩

/-- JavaScript `split(sep)` with a one-character separator: `split` never
returns an empty array, and splitting the empty string yields `[""]`. -/
def splitOnChar (sep : Char) : List Char → List (List Char)
  | [] => [[]]
  | c :: cs =>
    let rest := splitOnChar sep cs
    if c = sep then [] :: rest
    else
      match rest with
      | [] => [[c]]
      | r :: rs => (c :: r) :: rs

/-- JavaScript `Array.prototype.join(sep)` on a non-empty string array. -/
def joinWith (sep : String) : List String → String
  | [] => ""
  | x :: xs => xs.foldl (fun acc y => acc ++ sep ++ y) x

/-- Does the character list `s` end with `pat`?  (JavaScript `endsWith`, and
the effect of an end-anchored regex literal match.) -/
def endsWithL (s pat : List Char) : Bool :=
  s.reverse.take pat.length == pat.reverse

/-- A browser `File` as the components consume it: `name`, MIME `type`,
`size` in bytes. -/
structure JsFile where
  name : String
  type : String
  size : Nat
  deriving DecidableEq, Repr

namespace ResumeUpload

/-- Constant `allowedTypes` from `ResumeUpload.tsx`. -/
def allowedTypes : List String :=
  ["application/pdf",
   "application/vnd.openxmlformats-officedocument.wordprocessingml.document",
   "application/msword",
   "text/plain"]

/-- Constant `allowedExtensions` from `ResumeUpload.tsx`. -/
def allowedExtensions : List String := ["pdf", "docx", "doc", "txt"]

/-- Constant `maxSize` from `ResumeUpload.tsx`: 10 MB. -/
def maxSize : Nat := 10 * 1024 * 1024

/-- Model of the expression `file.name.split(.).pop()?.toLowerCase()`: the
last dot-separated component of the filename, lowercased.  (JavaScript
`split` never returns an empty array, so `pop` is the last component; an
empty result is falsy and is folded into the `extension = ""` test of
`validateFile`.) -/
def extensionOf (name : String) : String :=
  ⟨((splitOnChar '.' name.data).getLastD []).map jsToLower⟩

/-- The message built from `allowedExtensions.join(...).toUpperCase()`. -/
def invalidTypeMsg : String :=
  "Invalid file type. Please upload: " ++
    joinWith ", " (allowedExtensions.map upperStr)

/-- Function `validateFile` from `ResumeUpload.tsx`: MIME type check with extension
fallback, then the strict size check; `none` means the file is accepted. -/
def validateFile (file : JsFile) : Option String :=
  if allowedTypes.contains file.type then
    if file.size > maxSize then some "File too large. Maximum size is 10MB"
    else none
  else
    if extensionOf file.name = "" ∨
        ¬ allowedExtensions.contains (extensionOf file.name) then
      some invalidTypeMsg
    else if file.size > maxSize then some "File too large. Maximum size is 10MB"
    else none

/-- The component state touched by `handleFileSelect` / `handleUpload`. -/
structure State where
  selectedFile : Option JsFile
  errorMessage : String
  uploadStatus : String
  deriving DecidableEq, Repr

/-- The state of a freshly mounted component. -/
def initialState : State :=
  { selectedFile := none, errorMessage := "", uploadStatus := "idle" }

/-- Function `handleFileSelect` from `ResumeUpload.tsx`: on a validation error it sets
the error state and returns; otherwise it selects the file and clears the
error. -/
def handleFileSelect (file : JsFile) (s : State) : State :=
  match validateFile file with
  | some err => { s with errorMessage := err, uploadStatus := "error" }
  | none => { s with selectedFile := some file, errorMessage := "",
                     uploadStatus := "idle" }

/-- The `userService.uploadResume` calls issued by `handleUpload`: none when
no file is selected or no user is logged in, otherwise exactly one call for
the selected file.  Each call is what creates a Resume record. -/
def uploadCalls (s : State) (currentUserId : Option String) :
    List (String × JsFile) :=
  match s.selectedFile with
  | none => []
  | some f =>
    match currentUserId with
    | none => []
    | some uid => [(uid, f)]

end ResumeUpload

namespace WizardUpload

/-- The regex test in `handleFileSelect` of the wizard:
`file.name.toLowerCase().match(/\.(pdf|docx|doc|txt)$/)`. -/
def matchesResumeExt (name : String) : Bool :=
  let n := (lowerStr name).data
  endsWithL n ".pdf".data || endsWithL n ".docx".data ||
    endsWithL n ".doc".data || endsWithL n ".txt".data

/-- The validation steps of the wizard `handleFileSelect`: MIME list with a
regex extension fallback, then the strict 10 MB size check. -/
def fileError (file : JsFile) : Option String :=
  if ¬ ResumeUpload.allowedTypes.contains file.type ∧
      ¬ matchesResumeExt file.name then
    some "Please select a PDF, DOCX, DOC, or TXT file."
  else if file.size > 10 * 1024 * 1024 then
    some "File size must be less than 10MB."
  else none

end WizardUpload

/-- Constant `API_BASE_URL` from `userService.ts`. -/
def apiBaseUrl : String := "http://localhost:8000"

/-- Model of one `fetch` call: URL and HTTP method. -/
structure FetchCall where
  url : String
  method : String
  deriving DecidableEq, Repr

/-- The part of a `fetch` response the client inspects: `ok`, `status`, the
JSON body (kept abstract as a string), and the parsed `detail` field of an
error body when present (`uploadResume` reads it). -/
structure HttpResponse where
  ok : Bool
  status : Nat
  body : String
  detail : Option String
  deriving DecidableEq, Repr

/-- The common response handling of `userService`: on `!response.ok` throw an
error made of a fixed prefix and the numeric status, otherwise return the
body. -/
def statusThrow (errPrefix : String) (resp : HttpResponse) :
    Except String String :=
  if resp.ok then Except.ok resp.body
  else Except.error (errPrefix ++ toString resp.status)

namespace userService

/-- Operation `userService.createUser`: one POST to `/api/users`; throws
`Failed to create user: <status>` on a non-ok response. -/
def createUser (resp : HttpResponse) : List FetchCall × Except String String :=
  ([⟨apiBaseUrl ++ "/api/users", "POST"⟩],
   statusThrow "Failed to create user: " resp)

/-- Operation `userService.getUser`. -/
def getUser (userId : String) (resp : HttpResponse) :
    List FetchCall × Except String String :=
  ([⟨apiBaseUrl ++ "/api/users/" ++ userId, "GET"⟩],
   statusThrow "Failed to get user: " resp)

/-- Request built by `userService.getUserJobs`: the `limit` parameter defaults to 50 and is
passed in the query string.  `none` models a caller that supplies no limit. -/
def getUserJobsRequest (userId : String) (limit : Option Nat) : FetchCall :=
  let l := limit.getD 50
  ⟨apiBaseUrl ++ "/api/users/" ++ userId ++ "/jobs?limit=" ++ toString l,
   "GET"⟩

/-- Operation `userService.getUserJobs`: one GET to the jobs query URL; throws
`Failed to get user jobs: <status>` on a non-ok response. -/
def getUserJobs (userId : String) (limit : Option Nat) (resp : HttpResponse) :
    List FetchCall × Except String String :=
  ([getUserJobsRequest userId limit],
   statusThrow "Failed to get user jobs: " resp)

/-- Operation `userService.deleteJob`: one DELETE to `/api/jobs/<id>`. -/
def deleteJob (jobId : String) (resp : HttpResponse) :
    List FetchCall × Except String String :=
  ([⟨apiBaseUrl ++ "/api/jobs/" ++ jobId, "DELETE"⟩],
   statusThrow "Failed to delete job: " resp)

/-- Operation `userService.restoreJob`: one POST to `/api/jobs/<id>/restore`. -/
def restoreJob (jobId : String) (resp : HttpResponse) :
    List FetchCall × Except String String :=
  ([⟨apiBaseUrl ++ "/api/jobs/" ++ jobId ++ "/restore", "POST"⟩],
   statusThrow "Failed to restore job: " resp)

/-- Operation `userService.setPrimaryResume`: one POST to
`/api/resumes/<id>/set-primary`. -/
def setPrimaryResume (resumeId : String) (resp : HttpResponse) :
    List FetchCall × Except String String :=
  ([⟨apiBaseUrl ++ "/api/resumes/" ++ resumeId ++ "/set-primary", "POST"⟩],
   statusThrow "Failed to set primary resume: " resp)

/-- Operation `userService.getResumeDownloadUrl`: one GET to
`/api/resumes/<id>/download`. -/
def getResumeDownloadUrl (resumeId : String) (resp : HttpResponse) :
    List FetchCall × Except String String :=
  ([⟨apiBaseUrl ++ "/api/resumes/" ++ resumeId ++ "/download", "GET"⟩],
   statusThrow "Failed to get download URL: " resp)

/-- Operation `userService.uploadResume`: one POST of form data; on a non-ok response
it throws `errorData.detail` when the error body parses to one, else
`Failed to upload resume: <status>`. -/
def uploadResume (userId : String) (resp : HttpResponse) :
    List FetchCall × Except String String :=
  ([⟨apiBaseUrl ++ "/api/users/" ++ userId ++ "/resumes/upload", "POST"⟩],
   if resp.ok then Except.ok resp.body
   else Except.error
     (resp.detail.getD ("Failed to upload resume: " ++ toString resp.status)))

end userService

namespace AddJob

/-- The whitespace class of JavaScript `String.prototype.trim` (the
characters occurring in the inputs this codebase handles). -/
def isJsWhitespace (c : Char) : Bool :=
  c == ' ' || c == '\t' || c == '\n' || c == '\r' ||
    c == '\x0b' || c == '\x0c' || c == ' '

/-- JavaScript `trim()` behaviour: strip leading and trailing whitespace. -/
def jsTrim (s : String) : String :=
  ⟨((s.data.dropWhile isJsWhitespace).reverse.dropWhile isJsWhitespace).reverse⟩

/-- Outcome of a submit handler: rejected before any network call with an
error message set, or an HTTP request issued. -/
inductive SubmitOutcome where
  | rejected (errorMessage : String)
  | requested (call : FetchCall)
  deriving DecidableEq, Repr

/-- Handler `handleSubmit` of `AddJobModal`: an empty (falsy) trimmed job description
sets the error and returns before the `fetch` to `/api/jobs`. -/
def modalHandleSubmit (jobDescription : String) : SubmitOutcome :=
  if jsTrim jobDescription = "" then
    SubmitOutcome.rejected "Job description is required"
  else
    SubmitOutcome.requested ⟨apiBaseUrl ++ "/api/jobs", "POST"⟩

/-- Handler `handleSubmit` of the Add-Job page: the same empty-description guard,
then a logged-in-user guard, before the `fetch` to `/api/jobs`. -/
def pageHandleSubmit (jobDescription : String) (currentUserId : Option String) :
    SubmitOutcome :=
  if jsTrim jobDescription = "" then
    SubmitOutcome.rejected "Job description is required"
  else
    match currentUserId with
    | none => SubmitOutcome.rejected "Please log in to add a job"
    | some _ => SubmitOutcome.requested ⟨apiBaseUrl ++ "/api/jobs", "POST"⟩

end AddJob

/-- A JavaScript `Date` as `getTimeAgo` consumes it: its epoch value in
milliseconds (`getTime()`) and its locale rendering
(`toLocaleDateString()`, kept abstract). -/
structure JsDate where
  epochMillis : Int
  localeDateString : String
  deriving DecidableEq, Repr

namespace Dashboard

/-- Handler `handleJobSelection` from the Dashboard page: copy the selection
set and toggle the membership of the given job id. -/
def handleJobSelection (selectedJobs : Finset String) (jobId : String) :
    Finset String :=
  if jobId ∈ selectedJobs then selectedJobs.erase jobId
  else insert jobId selectedJobs

/-- Helper `getTimeAgo` from the Dashboard page.  `now` is `new Date()`;
`Math.floor` of the millisecond quotient is integer floor division. -/
def getTimeAgo (now date : JsDate) : String :=
  let diffInHours : Int :=
    Int.fdiv (now.epochMillis - date.epochMillis) (1000 * 60 * 60)
  if diffInHours < 1 then "Just now"
  else if diffInHours < 24 then
    toString diffInHours ++ " hour" ++ (if diffInHours > 1 then "s" else "")
      ++ " ago"
  else
    let diffInDays : Int := Int.fdiv diffInHours 24
    if diffInDays < 7 then
      toString diffInDays ++ " day" ++ (if diffInDays > 1 then "s" else "")
        ++ " ago"
    else date.localeDateString

end Dashboard

namespace JobDetail

/-- Helper `getTimeAgo` from the job-detail page (the second copy of the helper,
embedded separately from its own source text). -/
def getTimeAgo (now date : JsDate) : String :=
  let diffInHours : Int :=
    Int.fdiv (now.epochMillis - date.epochMillis) (1000 * 60 * 60)
  if diffInHours < 1 then "Just now"
  else if diffInHours < 24 then
    toString diffInHours ++ " hour" ++ (if diffInHours > 1 then "s" else "")
      ++ " ago"
  else
    let diffInDays : Int := Int.fdiv diffInHours 24
    if diffInDays < 7 then
      toString diffInDays ++ " day" ++ (if diffInDays > 1 then "s" else "")
        ++ " ago"
    else date.localeDateString

end JobDetail

namespace Backend

/-- Modelled from the spec: the raw analysis reply of the hosted model
(`backend/agent_jd_strands.py` is not among the provided sources).  Per spec
§4.1 the reply is a JSON object whose expected keys may be absent; `Option`
marks each possibly-missing field. -/
structure RawAnalysis where
  job_title : Option String
  company_name : Option String
  salary_range : Option String
  required_skills : Option (List String)
  responsibilities : Option (List String)
  deriving DecidableEq, Repr

/-- Modelled from the spec: the persisted record shape produced by the
Analysis Normalizer — every expected field present. -/
structure NormalizedAnalysis where
  job_title : String
  company_name : String
  salary_range : String
  required_skills : List String
  responsibilities : List String
  deriving DecidableEq, Repr

/-- Modelled from the spec: the Analysis Normalizer (backend source not
provided).  A missing required field (job title) is classified as a
malformed-response error surfaced to the caller; missing optional fields are
defaulted to empty string / empty array. -/
def normalizeAnalysis (raw : RawAnalysis) : Except String NormalizedAnalysis :=
  match raw.job_title with
  | none => Except.error "malformed response: missing required field job_title"
  | some t =>
    Except.ok
      { job_title := t,
        company_name := raw.company_name.getD "",
        salary_range := raw.salary_range.getD "",
        required_skills := raw.required_skills.getD [],
        responsibilities := raw.responsibilities.getD [] }

/-- Modelled from the spec: persisting an analyzed Job appends the
normalized record to the job store; a normalizer error propagates and the
store is left untouched. -/
def persistAnalyzed (store : List NormalizedAnalysis) (raw : RawAnalysis) :
    Except String (List NormalizedAnalysis) :=
  match normalizeAnalysis raw with
  | Except.error e => Except.error e
  | Except.ok rec => Except.ok (rec :: store)

/-- Modelled from the spec: an uploaded-Resume record of the document store
(backend `services/database_service.py` is not provided): id, owning user,
and the primary flag. -/
structure ResumeRec where
  resume_id : String
  user_id : String
  is_primary : Bool
  deriving DecidableEq, Repr

/-- Modelled from the spec: the backend set-primary workflow behind
`POST /api/resumes/<id>/set-primary` (source not provided).  Per spec §3 and
§8, setting a resume primary transfers the flag exclusively within the
resumes of the owner: the chosen resume becomes primary and every other
resume of that user becomes non-primary; rows of other users are
untouched. -/
def setPrimaryResume (store : List ResumeRec) (resumeId : String) :
    List ResumeRec :=
  match store.find? (fun r => r.resume_id == resumeId) with
  | none => store
  | some target =>
    store.map (fun r =>
      if r.user_id == target.user_id then
        { r with is_primary := r.resume_id == resumeId }
      else r)

/-- Modelled from the spec: a Job record of the document store with its
soft-delete flag and its (nullable) structured analysis. -/
structure JobRec where
  job_id : String
  job_title : String
  application_status : String
  analysis : Option NormalizedAnalysis
  is_deleted : Bool
  deriving DecidableEq, Repr

/-- Modelled from the spec: the backend soft-delete behind
`DELETE /api/jobs/<id>` (source not provided) — the flag is set, the record
is retained, nothing else changes. -/
def deleteJob (store : List JobRec) (jobId : String) : List JobRec :=
  store.map (fun j =>
    if j.job_id == jobId then { j with is_deleted := true } else j)

/-- Modelled from the spec: the backend restore behind
`POST /api/jobs/<id>/restore` (source not provided) — the flag is cleared,
prior analysis retained as-is. -/
def restoreJob (store : List JobRec) (jobId : String) : List JobRec :=
  store.map (fun j =>
    if j.job_id == jobId then { j with is_deleted := false } else j)

end Backend

/-! ## Theorems -/

/-- C9: the Dashboard copy of `getTimeAgo` and the job-detail copy of
`getTimeAgo` are extensionally equal: for every current time and every input
date they return the same string. -/
theorem getTimeAgo_copies_agree (now date : JsDate) :
    Dashboard.getTimeAgo now date = JobDetail.getTimeAgo now date := rfl

/-- C7: `getUserJobs` queries the jobs endpoint with the result-count limit
in the query string, and a caller that supplies no limit gets the default
limit 50. -/
theorem getUserJobs_limit_default (uid : String) (lim : Option Nat)
    (resp : HttpResponse) :
    (userService.getUserJobs uid lim resp).1 =
      [⟨apiBaseUrl ++ "/api/users/" ++ uid ++ "/jobs?limit=" ++
          toString (lim.getD 50), "GET"⟩] ∧
    (userService.getUserJobs uid none resp).1 =
      [⟨apiBaseUrl ++ "/api/users/" ++ uid ++ "/jobs?limit=" ++ toString 50,
        "GET"⟩] :=
  ⟨rfl, rfl⟩

/-- C10: the extension fallback and the strict size guard of `validateFile`:
a file whose MIME type is outside the allowed list but whose extension is
`pdf` is accepted, and a file of exactly 10*1024*1024 bytes passes the size
check; the wizard validation accepts the same file. -/
theorem validateFile_fallback_and_boundary :
    ResumeUpload.validateFile
        ⟨"resume.pdf", "application/octet-stream", 10 * 1024 * 1024⟩ = none ∧
    ResumeUpload.allowedTypes.contains "application/octet-stream" = false ∧
    ResumeUpload.extensionOf "resume.pdf" = "pdf" ∧
    WizardUpload.fileError
        ⟨"resume.pdf", "application/octet-stream", 10 * 1024 * 1024⟩ = none := by
  refine ⟨?_, ?_, ?_, ?_⟩ <;> decide

/-- C8: `handleJobSelection` toggles exactly the membership of the given job
id in the selection set: the new set contains it iff the old one did not,
the membership of every other id is unchanged, and toggling twice restores
the original set. -/
theorem handleJobSelection_toggles (S : Finset String) (j : String) :
    (j ∈ Dashboard.handleJobSelection S j ↔ j ∉ S) ∧
    (∀ k, k ≠ j → (k ∈ Dashboard.handleJobSelection S j ↔ k ∈ S)) ∧
    Dashboard.handleJobSelection (Dashboard.handleJobSelection S j) j = S := by
  unfold Dashboard.handleJobSelection
  by_cases hj : j ∈ S
  · simp only [hj, if_true]
    refine ⟨by simp [hj], fun k hk => by simp [Finset.mem_erase, hk], ?_⟩
    have : j ∉ S.erase j := Finset.not_mem_erase j S
    simp only [this, if_false]
    exact Finset.insert_erase hj
  · simp only [hj, if_false]
    refine ⟨by simp [hj], fun k hk => by simp [Finset.mem_insert, hk], ?_⟩
    have : j ∈ insert j S := Finset.mem_insert_self j S
    simp only [this, if_true]
    exact Finset.erase_insert hj

/-- Witness for C8 at a concrete selection set and id. -/
theorem handleJobSelection_toggles_witness :
    (("a" : String) ∈ Dashboard.handleJobSelection {"a", "b"} "b" ↔
      ("a" : String) ∈ ({"a", "b"} : Finset String)) :=
  (handleJobSelection_toggles {"a", "b"} "b").2.1 "a" (by decide)

/-- A string all of whose characters are JavaScript whitespace trims to the
empty string. -/
theorem jsTrim_eq_empty (s : String)
    (h : s.data.all AddJob.isJsWhitespace = true) : AddJob.jsTrim s = "" := by
  unfold AddJob.jsTrim
  have h1 : s.data.dropWhile AddJob.isJsWhitespace = [] :=
    List.dropWhile_eq_nil_iff.mpr (fun x hx => by
      exact List.all_eq_true.mp h x hx)
  rw [h1]
  rfl

/-- C5: a job-creation submission whose description is empty or
whitespace-only is rejected with the error `Job description is required`
before any HTTP request is issued, in both the Add-Job modal and the Add-Job
page. -/
theorem addJob_empty_description_rejected (jd : String)
    (h : jd.data.all AddJob.isJsWhitespace = true) :
    AddJob.modalHandleSubmit jd =
      AddJob.SubmitOutcome.rejected "Job description is required" ∧
    ∀ uid : Option String,
      AddJob.pageHandleSubmit jd uid =
        AddJob.SubmitOutcome.rejected "Job description is required" := by
  have ht := jsTrim_eq_empty jd h
  exact ⟨by simp [AddJob.modalHandleSubmit, ht],
         fun uid => by simp [AddJob.pageHandleSubmit, ht]⟩

/-- Witness for C5 at the whitespace-only description `"  "`. -/
theorem addJob_empty_description_rejected_witness :
    AddJob.modalHandleSubmit "  " =
      AddJob.SubmitOutcome.rejected "Job description is required" :=
  (addJob_empty_description_rejected "  " (by decide)).1

/-- On an invalid file, `validateFile` returns one of its two error
messages. -/
theorem validateFile_isSome_cases (file : JsFile)
    (h : file.size > ResumeUpload.maxSize ∨
      (ResumeUpload.allowedTypes.contains file.type = false ∧
       ResumeUpload.allowedExtensions.contains
         (ResumeUpload.extensionOf file.name) = false)) :
    ResumeUpload.validateFile file = some ResumeUpload.invalidTypeMsg ∨
    ResumeUpload.validateFile file =
      some "File too large. Maximum size is 10MB" := by
  unfold ResumeUpload.validateFile
  by_cases ht : ResumeUpload.allowedTypes.contains file.type = true
  · have hs : file.size > ResumeUpload.maxSize := by
      rcases h with hs | ⟨hty, _⟩
      · exact hs
      · rw [ht] at hty
        cases hty
    right
    rw [if_pos ht, if_pos hs]
  · rw [if_neg ht]
    by_cases he : ResumeUpload.extensionOf file.name = "" ∨
        ¬ ResumeUpload.allowedExtensions.contains
            (ResumeUpload.extensionOf file.name) = true
    · left
      rw [if_pos he]
    · have hs : file.size > ResumeUpload.maxSize := by
        rcases h with hs | ⟨_, hext⟩
        · exact hs
        · exact absurd (Or.inr (by rw [hext]; exact Bool.false_ne_true)) he
      right
      rw [if_neg he, if_pos hs]

/-- C1: a file that is oversized, or whose MIME type and filename extension
are both outside the allowed set, is rejected: `validateFile` returns a
non-null message, `handleFileSelect` sets the error state and does not
select the file, and no `uploadResume` call (hence no Resume record)
results. -/
theorem upload_rejected_no_resume (file : JsFile) (uid : Option String)
    (h : file.size > ResumeUpload.maxSize ∨
      (ResumeUpload.allowedTypes.contains file.type = false ∧
       ResumeUpload.allowedExtensions.contains
         (ResumeUpload.extensionOf file.name) = false)) :
    (ResumeUpload.validateFile file).isSome = true ∧
    (ResumeUpload.handleFileSelect file ResumeUpload.initialState).uploadStatus
      = "error" ∧
    (ResumeUpload.handleFileSelect file ResumeUpload.initialState).errorMessage
      ≠ "" ∧
    (ResumeUpload.handleFileSelect file ResumeUpload.initialState).selectedFile
      = none ∧
    ResumeUpload.uploadCalls
      (ResumeUpload.handleFileSelect file ResumeUpload.initialState) uid
      = [] := by
  have hstate : ∀ err, ResumeUpload.validateFile file = some err →
      ResumeUpload.handleFileSelect file ResumeUpload.initialState =
        { selectedFile := none, errorMessage := err,
          uploadStatus := "error" } := fun err herr => by
    simp [ResumeUpload.handleFileSelect, herr, ResumeUpload.initialState]
  rcases validateFile_isSome_cases file h with hv | hv <;>
    rw [hstate _ hv] <;>
      exact ⟨by rw [hv]; rfl, rfl, by decide, rfl, rfl⟩

/-- Witness for C1: a disallowed MIME type with a disallowed extension is
rejected and triggers no upload call. -/
theorem upload_rejected_no_resume_witness :
    (ResumeUpload.validateFile ⟨"virus.exe", "application/exe", 7⟩).isSome
      = true ∧
    (ResumeUpload.handleFileSelect ⟨"virus.exe", "application/exe", 7⟩
        ResumeUpload.initialState).uploadStatus = "error" ∧
    (ResumeUpload.handleFileSelect ⟨"virus.exe", "application/exe", 7⟩
        ResumeUpload.initialState).errorMessage ≠ "" ∧
    (ResumeUpload.handleFileSelect ⟨"virus.exe", "application/exe", 7⟩
        ResumeUpload.initialState).selectedFile = none ∧
    ResumeUpload.uploadCalls
      (ResumeUpload.handleFileSelect ⟨"virus.exe", "application/exe", 7⟩
        ResumeUpload.initialState) (some "user_1") = [] :=
  upload_rejected_no_resume ⟨"virus.exe", "application/exe", 7⟩
    (some "user_1") (Or.inr ⟨by decide, by decide⟩)

/-- C2: the Analysis Normalizer surfaces a malformed-response error when the
required job title is missing — and the job store is left unchanged, no
analyzed Job being persisted — while missing optional fields are defaulted
to the empty string / empty array. -/
theorem normalizer_required_and_defaults (raw : Backend.RawAnalysis)
    (store : List Backend.NormalizedAnalysis) :
    (raw.job_title = none →
      Backend.normalizeAnalysis raw =
        Except.error "malformed response: missing required field job_title" ∧
      Backend.persistAnalyzed store raw =
        Except.error "malformed response: missing required field job_title") ∧
    (∀ t, raw.job_title = some t →
      Backend.normalizeAnalysis raw = Except.ok
        { job_title := t,
          company_name := raw.company_name.getD "",
          salary_range := raw.salary_range.getD "",
          required_skills := raw.required_skills.getD [],
          responsibilities := raw.responsibilities.getD [] } ∧
      Backend.persistAnalyzed store raw = Except.ok
        ({ job_title := t,
           company_name := raw.company_name.getD "",
           salary_range := raw.salary_range.getD "",
           required_skills := raw.required_skills.getD [],
           responsibilities := raw.responsibilities.getD [] } :: store)) := by
  constructor
  · intro hnone
    simp [Backend.normalizeAnalysis, Backend.persistAnalyzed, hnone]
  · intro t ht
    simp [Backend.normalizeAnalysis, Backend.persistAnalyzed, ht]

/-- Witness for C2: a reply lacking `job_title` is rejected, one carrying it
is normalized with defaults for its missing optional fields. -/
theorem normalizer_required_and_defaults_witness :
    Backend.persistAnalyzed [] ⟨none, some "Acme", none, none, none⟩ =
      Except.error "malformed response: missing required field job_title" ∧
    Backend.normalizeAnalysis
        ⟨some "Senior Engineer", some "Acme", none, none, none⟩ =
      Except.ok
        { job_title := "Senior Engineer", company_name := "Acme",
          salary_range := "", required_skills := [],
          responsibilities := [] } :=
  ⟨((normalizer_required_and_defaults ⟨none, some "Acme", none, none, none⟩
      []).1 rfl).2,
   ((normalizer_required_and_defaults
      ⟨some "Senior Engineer", some "Acme", none, none, none⟩ []).2
      "Senior Engineer" rfl).1⟩

/-- C6: every modelled `userService` operation issues exactly one fetch (no
automatic retry), and on a non-ok response throws an error carrying the
failure — the numeric status, or for `uploadResume` the parsed `detail` when
the error body provides one — instead of returning a result. -/
theorem userService_throws_on_not_ok (uid jid rid : String)
    (lim : Option Nat) (resp : HttpResponse) (h : resp.ok = false) :
    ((userService.createUser resp).1.length = 1 ∧
      (userService.createUser resp).2 =
        Except.error ("Failed to create user: " ++ toString resp.status)) ∧
    ((userService.getUser uid resp).1.length = 1 ∧
      (userService.getUser uid resp).2 =
        Except.error ("Failed to get user: " ++ toString resp.status)) ∧
    ((userService.getUserJobs uid lim resp).1.length = 1 ∧
      (userService.getUserJobs uid lim resp).2 =
        Except.error ("Failed to get user jobs: " ++ toString resp.status)) ∧
    ((userService.deleteJob jid resp).1.length = 1 ∧
      (userService.deleteJob jid resp).2 =
        Except.error ("Failed to delete job: " ++ toString resp.status)) ∧
    ((userService.restoreJob jid resp).1.length = 1 ∧
      (userService.restoreJob jid resp).2 =
        Except.error ("Failed to restore job: " ++ toString resp.status)) ∧
    ((userService.setPrimaryResume rid resp).1.length = 1 ∧
      (userService.setPrimaryResume rid resp).2 =
        Except.error
          ("Failed to set primary resume: " ++ toString resp.status)) ∧
    ((userService.getResumeDownloadUrl rid resp).1.length = 1 ∧
      (userService.getResumeDownloadUrl rid resp).2 =
        Except.error ("Failed to get download URL: " ++ toString resp.status)) ∧
    ((userService.uploadResume uid resp).1.length = 1 ∧
      (userService.uploadResume uid resp).2 =
        Except.error
          (resp.detail.getD
            ("Failed to upload resume: " ++ toString resp.status))) := by
  simp [userService.createUser, userService.getUser, userService.getUserJobs,
    userService.deleteJob, userService.restoreJob,
    userService.setPrimaryResume, userService.getResumeDownloadUrl,
    userService.uploadResume, statusThrow, h]

/-- Witness for C6 at a concrete 500 response. -/
theorem userService_throws_on_not_ok_witness :
    (userService.createUser ⟨false, 500, "", none⟩).1.length = 1 ∧
    (userService.createUser ⟨false, 500, "", none⟩).2 =
      Except.error ("Failed to create user: " ++ toString 500) :=
  (userService_throws_on_not_ok "u1" "j1" "r1" none
    ⟨false, 500, "", none⟩ rfl).1

/-- C4: soft delete retains the record (only the flag is set), restore
clears the flag, analysis data is untouched by both, and on a job that was
visible before the delete the delete-restore pair round-trips the store to
its exact prior state. -/
theorem deleteJob_restoreJob_roundtrip (store : List Backend.JobRec)
    (jid : String)
    (h : ∀ j ∈ store, j.job_id = jid → j.is_deleted = false) :
    Backend.restoreJob (Backend.deleteJob store jid) jid = store ∧
    (Backend.deleteJob store jid).length = store.length ∧
    (Backend.deleteJob store jid).map (fun j => j.analysis) =
      store.map (fun j => j.analysis) ∧
    (Backend.restoreJob (Backend.deleteJob store jid) jid).map
        (fun j => j.analysis) = store.map (fun j => j.analysis) ∧
    (∀ j ∈ store, j.job_id = jid →
      { j with is_deleted := true } ∈ Backend.deleteJob store jid) ∧
    (∀ j ∈ store, j.job_id ≠ jid → j ∈ Backend.deleteJob store jid) := by
  have hrt : Backend.restoreJob (Backend.deleteJob store jid) jid = store := by
    unfold Backend.restoreJob Backend.deleteJob
    rw [List.map_map]
    have : ∀ j ∈ store,
        ((fun j => if j.job_id == jid then { j with is_deleted := false }
            else j) ∘
          (fun j => if j.job_id == jid then { j with is_deleted := true }
            else j)) j = j := by
      intro j hj
      by_cases hid : j.job_id == jid
      · have hfalse := h j hj (beq_iff_eq.mp hid)
        obtain ⟨id, title, st, an, del⟩ := j
        simp_all [Function.comp]
      · simp [Function.comp, hid]
    rw [List.map_congr_left this, List.map_id']
  refine ⟨hrt, ?_, ?_, ?_, ?_, ?_⟩
  · unfold Backend.deleteJob
    rw [List.length_map]
  · unfold Backend.deleteJob
    rw [List.map_map]
    refine List.map_congr_left fun j hj => ?_
    by_cases hid : j.job_id == jid <;> simp [Function.comp, hid]
  · rw [hrt]
  · intro j hj hid
    unfold Backend.deleteJob
    refine List.mem_map.mpr ⟨j, hj, ?_⟩
    simp [hid]
  · intro j hj hid
    unfold Backend.deleteJob
    refine List.mem_map.mpr ⟨j, hj, ?_⟩
    simp [hid]

/-- Witness for C4 on a one-job store holding an analyzed visible job. -/
theorem deleteJob_restoreJob_roundtrip_witness :
    Backend.restoreJob
        (Backend.deleteJob
          [⟨"j1", "Senior Engineer", "new",
            some ⟨"Senior Engineer", "Acme", "", [], []⟩, false⟩] "j1") "j1" =
      [⟨"j1", "Senior Engineer", "new",
        some ⟨"Senior Engineer", "Acme", "", [], []⟩, false⟩] :=
  (deleteJob_restoreJob_roundtrip
    [⟨"j1", "Senior Engineer", "new",
      some ⟨"Senior Engineer", "Acme", "", [], []⟩, false⟩] "j1"
    (by decide)).1

/-- In a list of resume rows with pairwise-distinct ids, a predicate that
forces a fixed id holds on at most one row. -/
theorem countP_le_one_of_key (l : List Backend.ResumeRec) (rid : String)
    (hnd : (l.map (fun r => r.resume_id)).Nodup)
    (p : Backend.ResumeRec → Bool)
    (hp : ∀ r ∈ l, p r = true → r.resume_id = rid) :
    l.countP p ≤ 1 := by
  induction l with
  | nil => simp
  | cons hd tl ih =>
    rw [List.map_cons, List.nodup_cons] at hnd
    obtain ⟨hhd, htl⟩ := hnd
    rw [List.countP_cons]
    by_cases hph : p hd = true
    · have hid : hd.resume_id = rid := hp hd (List.mem_cons_self hd tl) hph
      have hzero : tl.countP p = 0 := by
        rw [List.countP_eq_zero]
        intro r hr hpr
        have hrid : r.resume_id = rid :=
          hp r (List.mem_cons_of_mem hd hr) hpr
        exact absurd
          (List.mem_map.mpr ⟨r, hr, hrid.trans hid.symm⟩) hhd
      simp [hph, hzero]
    · have hle : tl.countP p ≤ 1 :=
        ih htl (fun r hr hpr => hp r (List.mem_cons_of_mem hd hr) hpr)
      simpa [hph] using hle

/-- C3: after the set-primary workflow runs for a resume present in the
store, the chosen resume is primary, a previously primary resume of the same
user is no longer primary, any primary resume of that user is the chosen
one, and — when resume ids are distinct — the user has at most one primary
row, the per-user invariant. -/
theorem setPrimaryResume_exclusive (store : List Backend.ResumeRec)
    (rid : String) (target old : Backend.ResumeRec)
    (hfind : store.find? (fun r => r.resume_id == rid) = some target)
    (hold : old ∈ store) (hu : old.user_id = target.user_id)
    (hprim : old.is_primary = true) (hne : old.resume_id ≠ rid) :
    ({ target with is_primary := true } ∈
      Backend.setPrimaryResume store rid) ∧
    ({ old with is_primary := false } ∈
      Backend.setPrimaryResume store rid) ∧
    (∀ r ∈ Backend.setPrimaryResume store rid,
      r.user_id = target.user_id → r.is_primary = true →
        r.resume_id = rid) ∧
    ((store.map (fun r => r.resume_id)).Nodup →
      ((Backend.setPrimaryResume store rid).filter
          (fun r => r.user_id == target.user_id && r.is_primary)).length
        ≤ 1) := by
  have htmem : target ∈ store := List.mem_of_find?_eq_some hfind
  have htid : (target.resume_id == rid) = true := by
    simpa using List.find?_some hfind
  have hsp : Backend.setPrimaryResume store rid =
      store.map (fun r =>
        if r.user_id == target.user_id then
          { r with is_primary := r.resume_id == rid }
        else r) := by
    unfold Backend.setPrimaryResume
    rw [hfind]
  refine ⟨?_, ?_, ?_, ?_⟩
  · rw [hsp]
    refine List.mem_map.mpr ⟨target, htmem, ?_⟩
    simp [htid]
  · rw [hsp]
    refine List.mem_map.mpr ⟨old, hold, ?_⟩
    have hbne : (old.resume_id == rid) = false := beq_eq_false_iff_ne.mpr hne
    simp [hu, hbne]
  · rw [hsp]
    intro r hr hru hrp
    obtain ⟨r0, hr0, hfr0⟩ := List.mem_map.mp hr
    by_cases h0 : (r0.user_id == target.user_id) = true
    · rw [if_pos h0] at hfr0
      rw [← hfr0] at hrp
      rw [← hfr0]
      exact beq_iff_eq.mp hrp
    · rw [if_neg (by simpa using h0)] at hfr0
      rw [← hfr0] at hru
      exact absurd (beq_iff_eq.mpr hru) (by simpa using h0)
  · intro hnd
    rw [hsp, ← List.countP_eq_length_filter, List.countP_map]
    refine countP_le_one_of_key store rid hnd _ (fun r hr hpr => ?_)
    simp only [Function.comp] at hpr
    by_cases h0 : (r.user_id == target.user_id) = true
    · rw [if_pos h0] at hpr
      simp only [Bool.and_eq_true] at hpr
      exact beq_iff_eq.mp hpr.2
    · rw [if_neg (by simpa using h0)] at hpr
      simp only [Bool.and_eq_true] at hpr
      exact absurd hpr.1 h0

/-- Witness for C3 on a two-resume store where the primary flag moves from
`r1` to `r2`. -/
theorem setPrimaryResume_exclusive_witness :
    ({ resume_id := "r2", user_id := "u1", is_primary := true } ∈
      Backend.setPrimaryResume
        [⟨"r1", "u1", true⟩, ⟨"r2", "u1", false⟩] "r2") ∧
    ({ resume_id := "r1", user_id := "u1", is_primary := false } ∈
      Backend.setPrimaryResume
        [⟨"r1", "u1", true⟩, ⟨"r2", "u1", false⟩] "r2") :=
  have h := setPrimaryResume_exclusive
    [⟨"r1", "u1", true⟩, ⟨"r2", "u1", false⟩] "r2"
    ⟨"r2", "u1", false⟩ ⟨"r1", "u1", true⟩
    (by decide) (by decide) rfl rfl (by decide)
  ⟨h.1, h.2.1⟩

end ResumeRewriter
